import Mathlib

set_option maxRecDepth 8000

/-
Verification development for the ai_automation_creator front-end panel.

The embedded functions are shallow translations of the JavaScript source:
- namespace Panel   : the HTMLElement panel in
  custom_components/ai_automation_creator/www/main.js (generateAutomation,
  handleError, reset), with the hass service calls modelled as an explicit
  environment of call results and an event trace of issued calls.
- namespace Guided  : the guided-conversation LitElement component
  (unnamed/part_000 and the second component of www/main.js): handleSend,
  startOver, createAutomation, the step list, and the renderConversation
  index access.
- namespace PromptPanel : the single-shot LitElement panel that is the
  second component of unnamed/part_001 (createAutomation, startOver).

Asynchronous promise chains are modelled by running each resolution
handler in order as a pure state transformation; setTimeout waits appear
as explicit delay events in the trace, and each hass.callService or
hass.callApi invocation appears as one event.
-/

namespace Automator

inductive Sender where
  | user
  | assistant
deriving DecidableEq

structure Msg where
  sender : Sender
  content : String
deriving DecidableEq

structure Step where
  question : String
  answer : String
deriving DecidableEq

/-- Events observable at the host boundary: backend service calls, the
REST api call of the guided component, and setTimeout delays (ms). -/
inductive Ev where
  | createCall (description : String)
  | fetchCall
  | apiGetCall
  | delay (ms : Nat)
deriving DecidableEq

def isCreateEv : Ev → Bool
  | .createCall _ => true
  | _ => false

def isFetchEv : Ev → Bool
  | .fetchCall => true
  | _ => false

/-- Result of one asynchronous host call: resolution carrying an optional
result text, or rejection carrying an optional error message. -/
inductive CallResult where
  | ok (res : Option String)
  | err (msg : Option String)
deriving DecidableEq

/-- The SubmissionOutcome tagged variant of the specification, used to
label which resolution branch of the orchestrator ran. -/
inductive Outcome where
  | success (resultText : String)
  | successPendingFetch (note : String)
  | failure (errorText : String)
deriving DecidableEq

/-- JavaScript truthiness fallback for strings: m or d, where a missing or
empty message falls through to the default (JS operator ||). -/
def jsOr (m : Option String) (d : String) : String :=
  match m with
  | some s => if s = "" then d else s
  | none => d

/-- Whitespace test for the characters that occur in this development,
modelling the JavaScript trim character class. -/
def isWs (c : Char) : Bool :=
  c == ' ' || c == '\n' || c == '\t' || c == '\r'

def dropLeadingWs : List Char → List Char
  | [] => []
  | c :: cs => if isWs c then dropLeadingWs cs else c :: cs

/-- Model of the JavaScript String.prototype.trim primitive: drop leading
and trailing whitespace. -/
def jsTrim (s : String) : String :=
  ⟨((dropLeadingWs s.data).reverse |> dropLeadingWs).reverse⟩

def charsStartWith : List Char → List Char → Bool
  | _, [] => true
  | [], _ :: _ => false
  | a :: as, b :: bs => a == b && charsStartWith as bs

def charsContain (hay needle : List Char) : Bool :=
  match hay with
  | [] => charsStartWith [] needle
  | _ :: rest => charsStartWith hay needle || charsContain rest needle

/-- Model of the JavaScript String.prototype.includes primitive. -/
def strIncludes (hay needle : String) : Bool :=
  charsContain hay.data needle.data

namespace Panel

/-- Component state of the main.js HTMLElement panel (constructor fields
userInput, isProcessing, automationYaml, automationCreated, errorMessage). -/
structure State where
  userInput : String
  isProcessing : Bool
  automationYaml : String
  automationCreated : Bool
  errorMessage : Option String
deriving DecidableEq

def initState : State :=
  { userInput := ""
    isProcessing := false
    automationYaml := ""
    automationCreated := false
    errorMessage := none }

/-- Environment for one run of generateAutomation: the resolution of the
create_automation call, of the first and of the retried
get_automation_yaml call, and the keys of the hass states object. -/
structure Hass where
  createResp : CallResult
  fetchResp1 : CallResult
  fetchResp2 : CallResult
  stateKeys : List String
deriving DecidableEq

/-- Error text computed by handleError from the rejection value. -/
def errText (m : Option String) : String :=
  "Error: " ++ jsOr m ("Failed to create automation")

/-- Translation of handleError: leave the Submitting phase and surface
the error message. -/
def handleError (m : Option String) (s : State) : State :=
  { s with isProcessing := false, errorMessage := some (errText m) }

/-- Translation of the success-notification scan over the hass states
keys inside the retry branch of generateAutomation. -/
def successNotificationSeen (h : Hass) : Bool :=
  h.stateKeys.any fun k =>
    strIncludes k ("persistent_notification.ai_automation_creator_success")

/-- Fallback text chosen by the retry branch when the second fetch also
returns no yaml. -/
def pendingMsg (h : Hass) : String :=
  if successNotificationSeen h then
    "Automation was created successfully and added to your automations.yaml file."
  else
    "Automation has been processed. Please check your automations.yaml file."

structure Run where
  state : State
  events : List Ev
  outcome : Option Outcome
deriving DecidableEq

/-- Translation of generateAutomation from www/main.js lines 279 to 358.
The promise chain is flattened branch by branch: guard, create call,
2000 ms wait, first get_automation_yaml, and on a missing yaml the 1000 ms
wait, notification scan and retried get_automation_yaml; every rejection
reaches handleError. The outcome field labels the resolution branch with
the SubmissionOutcome variant of the specification; the guard branch
produces no outcome because the call returns without starting a
submission. -/
def generateAutomation (h : Hass) (s : State) : Run :=
  if jsTrim s.userInput = "" ∨ s.isProcessing = true then
    { state := s, events := [], outcome := none }
  else
    let s1 : State := { s with isProcessing := true, errorMessage := none }
    match h.createResp with
    | .err m =>
        { state := handleError m s1
          events := [Ev.createCall s.userInput]
          outcome := some (.failure (errText m)) }
    | .ok _ =>
        match h.fetchResp1 with
        | .err m =>
            { state := handleError m s1
              events := [Ev.createCall s.userInput, Ev.delay 2000, Ev.fetchCall]
              outcome := some (.failure (errText m)) }
        | .ok (some y) =>
            { state := { s1 with automationYaml := y, isProcessing := false,
                                 automationCreated := true }
              events := [Ev.createCall s.userInput, Ev.delay 2000, Ev.fetchCall]
              outcome := some (.success y) }
        | .ok none =>
            match h.fetchResp2 with
            | .err m =>
                { state := handleError m s1
                  events := [Ev.createCall s.userInput, Ev.delay 2000, Ev.fetchCall,
                             Ev.delay 1000, Ev.fetchCall]
                  outcome := some (.failure (errText m)) }
            | .ok (some y) =>
                { state := { s1 with automationYaml := y, isProcessing := false,
                                     automationCreated := true }
                  events := [Ev.createCall s.userInput, Ev.delay 2000, Ev.fetchCall,
                             Ev.delay 1000, Ev.fetchCall]
                  outcome := some (.success y) }
            | .ok none =>
                { state := { s1 with automationYaml := pendingMsg h,
                                     isProcessing := false,
                                     automationCreated := true }
                  events := [Ev.createCall s.userInput, Ev.delay 2000, Ev.fetchCall,
                             Ev.delay 1000, Ev.fetchCall]
                  outcome := some (.successPendingFetch (pendingMsg h)) }

end Panel

namespace Guided

/-- Component state of the guided-conversation component (unnamed/part_000
and the second component of www/main.js). -/
structure State where
  conversation : List Msg
  userInput : String
  isProcessing : Bool
  automationYaml : String
  automationCreated : Bool
  currentStep : Nat
  automationSteps : List Step
deriving DecidableEq

/-- The fixed five-step question list built in the constructor. -/
def defaultSteps : List Step :=
  [⟨"What would you like this automation to do? (Describe in natural language)", ""⟩,
   ⟨"When should this automation trigger? (Time, event, condition, etc.)", ""⟩,
   ⟨"Which devices or entities should be involved?", ""⟩,
   ⟨"Are there any conditions that should be met before the automation runs?", ""⟩,
   ⟨"Is there anything else I should know about this automation?", ""⟩]

/-- Question text at an index; the source reads automationSteps[i].question,
which is only meaningful in bounds. -/
def questionAt (steps : List Step) (i : Nat) : String :=
  ((steps[i]?).getD ⟨"", ""⟩).question

def answerAt (steps : List Step) (i : Nat) : Option String :=
  (steps[i]?).map (·.answer)

/-- In-place answer assignment automationSteps[i].answer = a, in bounds. -/
def setAnswer : List Step → Nat → String → List Step
  | [], _, _ => []
  | st :: rest, 0, a => { st with answer := a } :: rest
  | st :: rest, n + 1, a => st :: setAnswer rest n a

/-- State after the constructor plus connectedCallback, which seeds the
conversation with the first question. -/
def initState : State :=
  { conversation := [⟨.assistant, questionAt defaultSteps 0⟩]
    userInput := ""
    isProcessing := false
    automationYaml := ""
    automationCreated := false
    currentStep := 0
    automationSteps := defaultSteps }

/-- Translation of handleSend (unnamed/part_000 lines 112 to 139 and
www/main.js lines 514 to 544): reject blank input, append the user
message, record the answer on the current step, clear the input, then
either advance to the next step and append its question as an assistant
message, or mark completion by setting currentStep to the step count. -/
def handleSend (s : State) : State :=
  if jsTrim s.userInput = "" then s
  else if s.currentStep < s.automationSteps.length - 1 then
    { s with
      conversation := (s.conversation ++ [⟨.user, s.userInput⟩]) ++
        [⟨.assistant, questionAt (setAnswer s.automationSteps s.currentStep s.userInput)
            (s.currentStep + 1)⟩]
      automationSteps := setAnswer s.automationSteps s.currentStep s.userInput
      userInput := ""
      currentStep := s.currentStep + 1 }
  else
    { s with
      conversation := s.conversation ++ [⟨.user, s.userInput⟩]
      automationSteps := setAnswer s.automationSteps s.currentStep s.userInput
      userInput := ""
      currentStep := s.automationSteps.length }

/-- UI path for answering: the input event stores the text in userInput
and the send button invokes handleSend. -/
def submitAnswer (t : String) (s : State) : State :=
  handleSend { s with userInput := t }

/-- Translation of startOver: clear everything, reset every answer, and
re-seed the conversation with the first question. -/
def startOver (s : State) : State :=
  { conversation :=
      [⟨.assistant, questionAt (s.automationSteps.map fun st => { st with answer := "" }) 0⟩]
    userInput := ""
    isProcessing := s.isProcessing
    automationYaml := ""
    automationCreated := false
    currentStep := 0
    automationSteps := s.automationSteps.map fun st => { st with answer := "" } }

/-- Body of the forEach accumulation inside createAutomation. -/
def descStep (acc : String) (st : Step) : String :=
  acc ++ st.question ++ "\n" ++ st.answer ++ "\n\n"

/-- Translation of the fullDescription accumulation in createAutomation:
fullDescription += question newline answer blank-line for every step. -/
def fullDescription (steps : List Step) : String :=
  steps.foldl descStep ""

/-- Environment for one run of the guided createAutomation: resolution of
the create_automation call and of the follow-up REST api call (none
models rejection; unnamed/part_000 has no catch on it, so the yaml field
is then left unchanged). -/
structure Hass where
  createResp : CallResult
  apiResp : Option String
deriving DecidableEq

/-- Translation of the guided createAutomation (unnamed/part_000 lines
141 to 184): set isProcessing, issue the creation call with the combined
description, and on resolution append the fixed assistant message, leave
the Submitting phase, mark creation and issue the api call for the yaml;
on rejection append the error message and leave the Submitting phase.
There is no isProcessing guard in this method. -/
def createAutomation (h : Hass) (s : State) : State × List Ev :=
  let desc := fullDescription s.automationSteps
  let s1 : State := { s with isProcessing := true }
  match h.createResp with
  | .ok _ =>
      let s2 : State :=
        { s1 with
          conversation := s.conversation ++
            [⟨.assistant, "I\x27ve created your automation! You can find it in your automations.yaml file or in the automation editor."⟩]
          automationCreated := true
          isProcessing := false }
      match h.apiResp with
      | some j => ({ s2 with automationYaml := j }, [Ev.createCall desc, Ev.apiGetCall])
      | none => (s2, [Ev.createCall desc, Ev.apiGetCall])
  | .err m =>
      ({ s1 with
         conversation := s.conversation ++
           [⟨.assistant, "Sorry, there was an error creating your automation: " ++
              (match m with | some t => t | none => "undefined")⟩]
         isProcessing := false },
       [Ev.createCall desc])

/-- Index access automationSteps[currentStep] performed by
renderConversation when isProcessing is false; none models the JavaScript
undefined lookup whose question dereference throws. -/
def renderQuestionStep (s : State) : Option Step :=
  s.automationSteps[s.currentStep]?

end Guided

namespace PromptPanel

/-- Component state of the single-shot panel that is the second component
of unnamed/part_001. -/
structure State where
  userInput : String
  isProcessing : Bool
  automationYaml : String
  automationCreated : Bool
  resultMessage : String
deriving DecidableEq

def initState : State :=
  { userInput := ""
    isProcessing := false
    automationYaml := ""
    automationCreated := false
    resultMessage := "" }

/-- Environment for one run: resolution of the creation call, presence of
the success notification in hass states, and the optional
latest_automation entry of hass data. -/
structure Hass where
  createResp : CallResult
  markerSeen : Bool
  latest : Option String
deriving DecidableEq

/-- Translation of createAutomation from unnamed/part_001 lines 396 to
433: guard on blank input, set isProcessing, issue the creation call with
the trimmed description; on resolution fill the result view from the
hass data (both branches of the notification test coincide in the
source); on rejection surface the error text in the result view and set
automationCreated to true as the source does. -/
def createAutomation (h : Hass) (s : State) : State × List Ev :=
  if jsTrim s.userInput = "" then (s, [])
  else
    let s1 : State := { s with isProcessing := true }
    match h.createResp with
    | .ok _ =>
        let yaml :=
          if h.markerSeen then
            jsOr h.latest ("Automation created successfully. The YAML is available in your Home Assistant automations.yaml file.")
          else
            jsOr h.latest ("Automation created successfully. The YAML is available in your Home Assistant automations.yaml file.")
        ({ s1 with
           resultMessage := "Automation created successfully! You can find it in your automations.yaml file or in the automation editor."
           isProcessing := false
           automationCreated := true
           automationYaml := yaml },
         [Ev.createCall (jsTrim s.userInput)])
    | .err m =>
        ({ s1 with
           resultMessage := "Error creating automation: " ++ jsOr m ("Unknown error")
           isProcessing := false
           automationCreated := true
           automationYaml := "Failed to create automation. Please try again with a more detailed description." },
         [Ev.createCall (jsTrim s.userInput)])

end PromptPanel

/-- Modelled from the spec: the transcript shape the specification
describes in words, every prompt followed by its answer, consecutive
prompt-answer pairs separated by one blank line, steps in original order.
Stated separately from fullDescription so the two can be compared. -/
def transcriptSpec : List Step → String
  | [] => ""
  | [st] => st.question ++ "\n" ++ st.answer
  | st :: rest => st.question ++ "\n" ++ st.answer ++ "\n\n" ++ transcriptSpec rest

/- Concrete fixtures used by witnesses and counterexamples. -/

/-- The five component questions with the answers a, b, c, d, e filled in
through setAnswer. -/
def answeredSteps : List Step :=
  Guided.setAnswer (Guided.setAnswer (Guided.setAnswer (Guided.setAnswer
    (Guided.setAnswer Guided.defaultSteps 0 ("a")) 1 ("b")) 2 ("c")) 3 ("d")) 4 ("e")

def readyState : Panel.State :=
  { Panel.initState with userInput := "turn on the lights" }

def busyPanelState : Panel.State :=
  { Panel.initState with userInput := "turn on the lights", isProcessing := true }

/-- Creation resolves carrying a result text, and the first fetch also
returns a text, so that the source of the displayed text is observable. -/
def panelFetchHass : Panel.Hass :=
  { createResp := .ok (some ("id: from_create"))
    fetchResp1 := .ok (some ("id: from_fetch"))
    fetchResp2 := .ok none
    stateKeys := [] }

/-- Creation resolves with no text and both fetches return no value. -/
def panelSilentHass : Panel.Hass :=
  { createResp := .ok none, fetchResp1 := .ok none, fetchResp2 := .ok none,
    stateKeys := [] }

/-- Creation rejects with the message quota exceeded. -/
def panelRejectHass : Panel.Hass :=
  { createResp := .err (some ("quota exceeded")), fetchResp1 := .ok none,
    fetchResp2 := .ok none, stateKeys := [] }

def guidedOkHass : Guided.Hass :=
  { createResp := .ok none, apiResp := none }

/-- Guided component state of an in-flight submission: isProcessing true
while the creation call of a previous createAutomation is outstanding. -/
def guidedInFlight : Guided.State :=
  { conversation := []
    userInput := ""
    isProcessing := true
    automationYaml := ""
    automationCreated := false
    currentStep := 5
    automationSteps := answeredSteps }

def promptRejectHass : PromptPanel.Hass :=
  { createResp := .err (some ("quota exceeded")), markerSeen := false, latest := none }

def promptReadyState : PromptPanel.State :=
  { PromptPanel.initState with userInput := "turn on the lights" }

/-- Guided component state reached from the initial state by answering
each of the five questions in turn with nonblank text. -/
def afterAllAnswers : Guided.State :=
  Guided.submitAnswer ("e") (Guided.submitAnswer ("d") (Guided.submitAnswer ("c")
    (Guided.submitAnswer ("b") (Guided.submitAnswer ("a") Guided.initState))))

/-- Effect a valid submitAnswer must have according to claim C7, phrased
over the embedded handleSend: the answer of the current step becomes the
submitted text, the questions are untouched, the input is cleared; below
the last step the engine advances one step and appends the user message
plus exactly one assistant message holding the next question; on the last
step the engine advances to the step count (the Complete marker) and
appends only the user message. -/
def sendSpec (s : Guided.State) : Prop :=
  Guided.answerAt (Guided.handleSend s).automationSteps s.currentStep =
    some s.userInput ∧
  (Guided.handleSend s).automationSteps.map Step.question =
    s.automationSteps.map Step.question ∧
  (Guided.handleSend s).userInput = "" ∧
  (s.currentStep + 1 < s.automationSteps.length →
    (Guided.handleSend s).currentStep = s.currentStep + 1 ∧
    (Guided.handleSend s).conversation =
      s.conversation ++ [⟨.user, s.userInput⟩,
        ⟨.assistant, Guided.questionAt s.automationSteps (s.currentStep + 1)⟩]) ∧
  (s.currentStep + 1 = s.automationSteps.length →
    (Guided.handleSend s).currentStep = s.automationSteps.length ∧
    (Guided.handleSend s).conversation = s.conversation ++ [⟨.user, s.userInput⟩])

/- Helper lemmas. -/

theorem foldl_descStep_shift (steps : List Step) (acc : String) :
    steps.foldl Guided.descStep acc = acc ++ steps.foldl Guided.descStep "" := by
  induction steps generalizing acc with
  | nil => simp
  | cons st rest ih =>
      simp only [List.foldl_cons]
      rw [ih (Guided.descStep acc st), ih (Guided.descStep "" st)]
      simp [Guided.descStep, String.append_assoc]

theorem setAnswer_map_question (steps : List Step) (i : Nat) (a : String) :
    (Guided.setAnswer steps i a).map Step.question = steps.map Step.question := by
  induction steps generalizing i with
  | nil => rfl
  | cons st rest ih =>
      cases i with
      | zero => simp [Guided.setAnswer]
      | succ n => simp [Guided.setAnswer, ih]

theorem answerAt_setAnswer_self (steps : List Step) (i : Nat) (a : String)
    (h : i < steps.length) :
    Guided.answerAt (Guided.setAnswer steps i a) i = some a := by
  induction steps generalizing i with
  | nil => simp at h
  | cons st rest ih =>
      cases i with
      | zero => simp [Guided.setAnswer, Guided.answerAt]
      | succ n =>
          simp only [Guided.setAnswer, Guided.answerAt, List.getElem?_cons_succ]
          exact ih n (by simpa using h)

theorem questionAt_setAnswer (steps : List Step) (i : Nat) (a : String) (j : Nat) :
    Guided.questionAt (Guided.setAnswer steps i a) j = Guided.questionAt steps j := by
  induction steps generalizing i j with
  | nil => rfl
  | cons st rest ih =>
      cases i with
      | zero =>
          cases j with
          | zero => simp [Guided.setAnswer, Guided.questionAt]
          | succ k => simp [Guided.setAnswer, Guided.questionAt]
      | succ n =>
          cases j with
          | zero => simp [Guided.setAnswer, Guided.questionAt]
          | succ k =>
              simp only [Guided.setAnswer, Guided.questionAt, List.getElem?_cons_succ]
              simpa [Guided.questionAt] using ih n k

theorem questionAt_clearAnswers (steps : List Step) (j : Nat) :
    Guided.questionAt (steps.map fun st => { st with answer := "" }) j =
      Guided.questionAt steps j := by
  induction steps generalizing j with
  | nil => rfl
  | cons st rest ih =>
      cases j with
      | zero => simp [Guided.questionAt]
      | succ k =>
          simp only [Guided.questionAt, List.map_cons, List.getElem?_cons_succ]
          cases h : rest[k]? with
          | none => simp [h]
          | some st2 => simp [h]

theorem panel_guard_false (s : Panel.State) (hg : jsTrim s.userInput ≠ "")
    (hp : s.isProcessing = false) :
    ¬(jsTrim s.userInput = "" ∨ s.isProcessing = true) := by
  rintro (h | h)
  · exact hg h
  · rw [hp] at h
    cases h

theorem panel_run_reject (h : Panel.Hass) (s : Panel.State) (m : Option String)
    (hg : jsTrim s.userInput ≠ "") (hp : s.isProcessing = false)
    (hc : h.createResp = .err m) :
    Panel.generateAutomation h s =
      { state := { s with isProcessing := false,
                          errorMessage :=
                            some ("Error: " ++ jsOr m ("Failed to create automation")) },
        events := [Ev.createCall s.userInput],
        outcome := some (.failure ("Error: " ++ jsOr m ("Failed to create automation"))) } := by
  simp only [Panel.generateAutomation, if_neg (panel_guard_false s hg hp), hc,
    Panel.handleError, Panel.errText]

theorem panel_run_fetch1 (h : Panel.Hass) (s : Panel.State) (r0 : Option String) (y : String)
    (hg : jsTrim s.userInput ≠ "") (hp : s.isProcessing = false)
    (hc : h.createResp = .ok r0) (h1 : h.fetchResp1 = .ok (some y)) :
    Panel.generateAutomation h s =
      { state := { s with isProcessing := false, errorMessage := none,
                          automationYaml := y, automationCreated := true },
        events := [Ev.createCall s.userInput, Ev.delay 2000, Ev.fetchCall],
        outcome := some (.success y) } := by
  simp only [Panel.generateAutomation, if_neg (panel_guard_false s hg hp), hc, h1]

theorem panel_run_pending (h : Panel.Hass) (s : Panel.State) (r0 : Option String)
    (hg : jsTrim s.userInput ≠ "") (hp : s.isProcessing = false)
    (hc : h.createResp = .ok r0) (h1 : h.fetchResp1 = .ok none)
    (h2 : h.fetchResp2 = .ok none) :
    Panel.generateAutomation h s =
      { state := { s with isProcessing := false, errorMessage := none,
                          automationYaml := Panel.pendingMsg h,
                          automationCreated := true },
        events := [Ev.createCall s.userInput, Ev.delay 2000, Ev.fetchCall,
                   Ev.delay 1000, Ev.fetchCall],
        outcome := some (.successPendingFetch (Panel.pendingMsg h)) } := by
  simp only [Panel.generateAutomation, if_neg (panel_guard_false s hg hp), hc, h1, h2]

theorem panel_run_busy (h : Panel.Hass) (s : Panel.State) (hp : s.isProcessing = true) :
    Panel.generateAutomation h s = { state := s, events := [], outcome := none } := by
  simp only [Panel.generateAutomation, hp]
  simp

theorem panel_leaves_submitting (h : Panel.Hass) (s : Panel.State)
    (hp : s.isProcessing = false) :
    (Panel.generateAutomation h s).state.isProcessing = false := by
  obtain ⟨cr, f1, f2, keys⟩ := h
  simp only [Panel.generateAutomation]
  split
  · exact hp
  · cases cr with
    | err m => rfl
    | ok r =>
        cases f1 with
        | err m => rfl
        | ok o =>
            cases o with
            | some y => rfl
            | none =>
                cases f2 with
                | err m => rfl
                | ok o2 => cases o2 <;> rfl

theorem guided_leaves_submitting (h : Guided.Hass) (s : Guided.State) :
    (Guided.createAutomation h s).1.isProcessing = false := by
  obtain ⟨cr, api⟩ := h
  cases cr with
  | ok r => cases api <;> rfl
  | err m => rfl

theorem prompt_leaves_submitting (h : PromptPanel.Hass) (s : PromptPanel.State)
    (hq : jsTrim s.userInput ≠ "") :
    (PromptPanel.createAutomation h s).1.isProcessing = false := by
  obtain ⟨cr, mk, la⟩ := h
  simp only [PromptPanel.createAutomation, if_neg hq]
  cases cr with
  | ok r => rfl
  | err m => rfl

/- Claim C1. -/

/-- C1, counterexample: with the five component questions answered a to e,
the description built by createAutomation is not the blank-line-separated
concatenation of the prompt-answer pairs that the claim states, because
the source appends one more blank line after the last pair. -/
theorem c1_counterexample :
    Guided.fullDescription answeredSteps ≠ transcriptSpec answeredSteps := by
  decide

/-- C1, amended: for every nonempty step list, the description built by
createAutomation equals the blank-line-separated concatenation of the
prompt-answer pairs in original order followed by one final blank line
(each pair is terminated, not merely separated, by a blank line). The
description is a pure function of the steps, so the same answers always
produce the same description. -/
theorem c1_theorem (steps : List Step) (h : steps ≠ []) :
    Guided.fullDescription steps = transcriptSpec steps ++ "\n\n" := by
  induction steps with
  | nil => cases h rfl
  | cons st rest ih =>
      cases rest with
      | nil =>
          simp [Guided.fullDescription, Guided.descStep, transcriptSpec,
            String.append_assoc]
      | cons st2 rest2 =>
          have hne : st2 :: rest2 ≠ [] := by simp
          calc Guided.fullDescription (st :: st2 :: rest2)
              = (st2 :: rest2).foldl Guided.descStep (Guided.descStep "" st) := by
                simp [Guided.fullDescription]
            _ = Guided.descStep "" st ++ Guided.fullDescription (st2 :: rest2) := by
                rw [foldl_descStep_shift]; rfl
            _ = Guided.descStep "" st ++ (transcriptSpec (st2 :: rest2) ++ "\n\n") := by
                rw [ih hne]
            _ = transcriptSpec (st :: st2 :: rest2) ++ "\n\n" := by
                simp [Guided.descStep, transcriptSpec, String.append_assoc]

/-- C1, witness: the amended equation evaluated on the five answered
component steps. -/
theorem c1_witness :
    Guided.fullDescription answeredSteps = transcriptSpec answeredSteps ++ "\n\n" :=
  c1_theorem answeredSteps (by decide)

/- Claim C2. -/

/-- C2, counterexample: the creation call resolves already carrying a
result text, yet the run issues a fetch call anyway (one, not zero), and
the displayed success text is the one returned by the fetch, not the one
carried by the creation response. This refutes the claim that no fetch
call occurs for such a submission. -/
theorem c2_counterexample :
    (Panel.generateAutomation panelFetchHass readyState).events.countP isFetchEv ≠ 0 ∧
    (Panel.generateAutomation panelFetchHass readyState).outcome =
      some (.success ("id: from_fetch")) := by
  constructor
  · decide
  · decide

/-- C2, amended: the creation response is ignored; whenever the creation
call resolves (with or without a carried result text) and the first fetch
returns the result text, submit resolves to Success of the fetched text
after exactly one creation call, a waiting period, and exactly one fetch
call; a fetch is therefore always issued on the success path, never zero. -/
theorem c2_theorem (h : Panel.Hass) (s : Panel.State) (r0 : Option String) (y : String)
    (hg : jsTrim s.userInput ≠ "") (hp : s.isProcessing = false)
    (hc : h.createResp = .ok r0) (h1 : h.fetchResp1 = .ok (some y)) :
    Panel.generateAutomation h s =
      { state := { s with isProcessing := false, errorMessage := none,
                          automationYaml := y, automationCreated := true },
        events := [Ev.createCall s.userInput, Ev.delay 2000, Ev.fetchCall],
        outcome := some (.success y) } ∧
    (Panel.generateAutomation h s).events.countP isFetchEv = 1 :=
  ⟨panel_run_fetch1 h s r0 y hg hp hc h1, by
    rw [panel_run_fetch1 h s r0 y hg hp hc h1]; rfl⟩

/-- C2, witness: the amended statement evaluated on the concrete
environment in which creation carries a text and the fetch returns one. -/
theorem c2_witness :
    Panel.generateAutomation panelFetchHass readyState =
      { state := { readyState with isProcessing := false, errorMessage := none,
                                   automationYaml := "id: from_fetch",
                                   automationCreated := true },
        events := [Ev.createCall readyState.userInput, Ev.delay 2000, Ev.fetchCall],
        outcome := some (.success ("id: from_fetch")) } ∧
    (Panel.generateAutomation panelFetchHass readyState).events.countP isFetchEv = 1 :=
  c2_theorem panelFetchHass readyState (some ("id: from_create")) ("id: from_fetch")
    (by decide) rfl rfl rfl

/- Claim C3. -/

/-- C3: when the creation call resolves with no result text and both
fetch attempts within the retry budget return no value, submit resolves
to the success-without-result outcome, never to Failure, the final state
leaves the Submitting phase showing the result view, and the trace shows
the initial fetch and one delayed retry of the fetch. -/
theorem c3_theorem (h : Panel.Hass) (s : Panel.State)
    (hg : jsTrim s.userInput ≠ "") (hp : s.isProcessing = false)
    (hc : h.createResp = .ok none) (h1 : h.fetchResp1 = .ok none)
    (h2 : h.fetchResp2 = .ok none) :
    (Panel.generateAutomation h s).outcome =
      some (.successPendingFetch (Panel.pendingMsg h)) ∧
    (∀ t, (Panel.generateAutomation h s).outcome ≠ some (.failure t)) ∧
    (Panel.generateAutomation h s).events =
      [Ev.createCall s.userInput, Ev.delay 2000, Ev.fetchCall,
       Ev.delay 1000, Ev.fetchCall] ∧
    (Panel.generateAutomation h s).state.isProcessing = false ∧
    (Panel.generateAutomation h s).state.automationCreated = true := by
  rw [panel_run_pending h s none hg hp hc h1 h2]
  refine ⟨rfl, ?_, rfl, rfl, rfl⟩
  intro t ht
  cases ht

/-- C3, witness: the statement evaluated on the concrete environment in
which the backend never returns a text. -/
theorem c3_witness :
    (Panel.generateAutomation panelSilentHass readyState).outcome =
      some (.successPendingFetch (Panel.pendingMsg panelSilentHass)) ∧
    (∀ t, (Panel.generateAutomation panelSilentHass readyState).outcome ≠
      some (.failure t)) ∧
    (Panel.generateAutomation panelSilentHass readyState).events =
      [Ev.createCall readyState.userInput, Ev.delay 2000, Ev.fetchCall,
       Ev.delay 1000, Ev.fetchCall] ∧
    (Panel.generateAutomation panelSilentHass readyState).state.isProcessing = false ∧
    (Panel.generateAutomation panelSilentHass readyState).state.automationCreated
      = true :=
  c3_theorem panelSilentHass readyState (by decide) rfl rfl rfl rfl

/- Claim C4. -/

/-- C4: when the creation call rejects, submit resolves to Failure whose
text carries the backend-supplied message (or the generic text when none
is supplied), the trace holds exactly the one creation call, so the
creation is not retried, no fetch call and no waiting period occur, and
the state shows the error without the result view. -/
theorem c4_theorem (h : Panel.Hass) (s : Panel.State) (m : Option String)
    (hg : jsTrim s.userInput ≠ "") (hp : s.isProcessing = false)
    (hc : h.createResp = .err m) :
    Panel.generateAutomation h s =
      { state := { s with isProcessing := false,
                          errorMessage :=
                            some ("Error: " ++ jsOr m ("Failed to create automation")) },
        events := [Ev.createCall s.userInput],
        outcome := some (.failure ("Error: " ++ jsOr m ("Failed to create automation"))) } ∧
    (Panel.generateAutomation h s).events.countP isFetchEv = 0 ∧
    (Panel.generateAutomation h s).events.countP isCreateEv = 1 :=
  ⟨panel_run_reject h s m hg hp hc, by
    rw [panel_run_reject h s m hg hp hc]; exact ⟨rfl, rfl⟩⟩

/-- C4, witness: the statement evaluated on the rejection with message
quota exceeded; the surfaced failure text is Error: quota exceeded. -/
theorem c4_witness :
    Panel.generateAutomation panelRejectHass readyState =
      { state := { readyState with
                     isProcessing := false,
                     errorMessage :=
                       some ("Error: " ++
                         jsOr (some ("quota exceeded")) ("Failed to create automation")) },
        events := [Ev.createCall readyState.userInput],
        outcome := some (.failure ("Error: " ++
          jsOr (some ("quota exceeded")) ("Failed to create automation"))) } ∧
    (Panel.generateAutomation panelRejectHass readyState).events.countP isFetchEv = 0 ∧
    (Panel.generateAutomation panelRejectHass readyState).events.countP isCreateEv = 1 :=
  c4_theorem panelRejectHass readyState (some ("quota exceeded")) (by decide) rfl rfl

/- Claim C5. -/

/-- C5, counterexample: the guided createAutomation has no isProcessing
guard; invoked on a state whose submission is in flight it issues another
creation call and mutates the state, refuting the claim for the guided
submit action (the cited part_000 lines 141 to 148). -/
theorem c5_counterexample :
    (Guided.createAutomation guidedOkHass guidedInFlight).2.countP isCreateEv = 1 ∧
    (Guided.createAutomation guidedOkHass guidedInFlight).1 ≠ guidedInFlight := by
  constructor
  · decide
  · decide

/-- C5, amended: in the main.js panel the claim holds: while isProcessing
is true, generateAutomation returns immediately, issues no backend call
at all and leaves the state unchanged. The guided createAutomation method
performs no such check and issues a creation call even while a submission
is in flight; re-entry there is prevented only by the disabled button in
the rendered markup. -/
theorem c5_theorem (h : Panel.Hass) (s : Panel.State) (hp : s.isProcessing = true) :
    Panel.generateAutomation h s = { state := s, events := [], outcome := none } :=
  panel_run_busy h s hp

/-- C5, witness: the amended statement evaluated on a busy panel state. -/
theorem c5_witness :
    Panel.generateAutomation panelSilentHass busyPanelState =
      { state := busyPanelState, events := [], outcome := none } :=
  c5_theorem panelSilentHass busyPanelState rfl

/- Claim C6. -/

/-- C6, counterexample: in the part_001 panel variant a rejected creation
call leaves the Submitting phase but sets automationCreated to true, so
the render shows the result view, not a distinct error phase; the claim
that a rejection never leads to the Done view fails for this cited
submit implementation. -/
theorem c6_counterexample :
    (PromptPanel.createAutomation promptRejectHass promptReadyState).1.automationCreated
      = true ∧
    (PromptPanel.createAutomation promptRejectHass promptReadyState).1.isProcessing
      = false ∧
    (PromptPanel.createAutomation promptRejectHass promptReadyState).1.resultMessage
      = "Error creating automation: quota exceeded" := by
  refine ⟨?_, ?_, ?_⟩ <;> decide

/-- C6, amended: every submit implementation leaves the Submitting phase
on every path once a submission starts: the main.js generateAutomation,
the guided createAutomation and the part_001 createAutomation all finish
with isProcessing false. On a creation rejection the main.js panel moves
to the error phase, surfacing the error message and leaving
automationCreated unchanged so the result view is not shown; the part_001
variant instead surfaces the error text inside the result view with
automationCreated set to true. -/
theorem c6_theorem (ph ph2 : Panel.Hass) (ps : Panel.State) (gh : Guided.Hass)
    (gs : Guided.State) (qh : PromptPanel.Hass) (qs : PromptPanel.State)
    (m : Option String)
    (hg : jsTrim ps.userInput ≠ "") (hp : ps.isProcessing = false)
    (hc : ph2.createResp = .err m) (hq : jsTrim qs.userInput ≠ "") :
    (Panel.generateAutomation ph ps).state.isProcessing = false ∧
    (Guided.createAutomation gh gs).1.isProcessing = false ∧
    (PromptPanel.createAutomation qh qs).1.isProcessing = false ∧
    (Panel.generateAutomation ph2 ps).state.errorMessage =
      some ("Error: " ++ jsOr m ("Failed to create automation")) ∧
    (Panel.generateAutomation ph2 ps).state.automationCreated = ps.automationCreated :=
  ⟨panel_leaves_submitting ph ps hp,
   guided_leaves_submitting gh gs,
   prompt_leaves_submitting qh qs hq,
   by rw [panel_run_reject ph2 ps m hg hp hc],
   by rw [panel_run_reject ph2 ps m hg hp hc]⟩

/-- C6, witness: the amended statement evaluated on concrete states and
backends, among them the rejection with message quota exceeded. -/
theorem c6_witness :
    (Panel.generateAutomation panelSilentHass readyState).state.isProcessing = false ∧
    (Guided.createAutomation guidedOkHass guidedInFlight).1.isProcessing = false ∧
    (PromptPanel.createAutomation promptRejectHass promptReadyState).1.isProcessing
      = false ∧
    (Panel.generateAutomation panelRejectHass readyState).state.errorMessage =
      some ("Error: " ++
        jsOr (some ("quota exceeded")) ("Failed to create automation")) ∧
    (Panel.generateAutomation panelRejectHass readyState).state.automationCreated =
      readyState.automationCreated :=
  c6_theorem panelSilentHass panelRejectHass readyState guidedOkHass guidedInFlight
    promptRejectHass promptReadyState (some ("quota exceeded"))
    (by decide) rfl rfl (by decide)

/- Claim C7. -/

/-- C7: a valid submitAnswer with a step index below the step count and
text that is nonblank after trimming records the text as the answer of
the current step, keeps every question, clears the input, appends the
user message, and either advances one step while appending exactly one
assistant message carrying the next question, or, on the last step,
advances to the Complete marker (currentStep equal to the step count)
and appends no assistant message. The embedded engine has no other
transition besides handleSend and startOver. -/
theorem c7_theorem (s : Guided.State) (hi : s.currentStep < s.automationSteps.length)
    (ht : jsTrim s.userInput ≠ "") : sendSpec s := by
  unfold sendSpec
  by_cases hlt : s.currentStep < s.automationSteps.length - 1
  · have hs : Guided.handleSend s =
        { s with
          conversation := (s.conversation ++ [⟨.user, s.userInput⟩]) ++
            [⟨.assistant, Guided.questionAt
                (Guided.setAnswer s.automationSteps s.currentStep s.userInput)
                (s.currentStep + 1)⟩],
          automationSteps := Guided.setAnswer s.automationSteps s.currentStep s.userInput,
          userInput := "",
          currentStep := s.currentStep + 1 } := by
      simp only [Guided.handleSend, if_neg ht, if_pos hlt]
    rw [hs]
    refine ⟨answerAt_setAnswer_self _ _ _ hi, setAnswer_map_question _ _ _, rfl, ?_, ?_⟩
    · intro _
      refine ⟨rfl, ?_⟩
      rw [questionAt_setAnswer]
      simp
    · intro h2
      exfalso
      omega
  · have hs : Guided.handleSend s =
        { s with
          conversation := s.conversation ++ [⟨.user, s.userInput⟩],
          automationSteps := Guided.setAnswer s.automationSteps s.currentStep s.userInput,
          userInput := "",
          currentStep := s.automationSteps.length } := by
      simp only [Guided.handleSend, if_neg ht, if_neg hlt]
    rw [hs]
    refine ⟨answerAt_setAnswer_self _ _ _ hi, setAnswer_map_question _ _ _, rfl, ?_, ?_⟩
    · intro h1
      exfalso
      omega
    · intro _
      exact ⟨rfl, rfl⟩

/-- C7, witness: the transition property evaluated on the initial state
with answer text a. -/
theorem c7_witness : sendSpec { Guided.initState with userInput := "a" } :=
  c7_theorem { Guided.initState with userInput := "a" } (by decide) (by decide)

/- Claim C8. -/

/-- C8: submitting text that is blank after trimming changes nothing:
the step index, the recorded answers and the message log all stay as
they were. -/
theorem c8_theorem (s : Guided.State) (t : String) (h : jsTrim t = "") :
    (Guided.submitAnswer t s).currentStep = s.currentStep ∧
    (Guided.submitAnswer t s).automationSteps = s.automationSteps ∧
    (Guided.submitAnswer t s).conversation = s.conversation := by
  unfold Guided.submitAnswer
  simp only [Guided.handleSend, h]
  simp

/-- C8, witness: whitespace-only input evaluated on the initial state. -/
theorem c8_witness :
    (Guided.submitAnswer ("   ") Guided.initState).currentStep =
      Guided.initState.currentStep ∧
    (Guided.submitAnswer ("   ") Guided.initState).automationSteps =
      Guided.initState.automationSteps ∧
    (Guided.submitAnswer ("   ") Guided.initState).conversation =
      Guided.initState.conversation :=
  c8_theorem Guided.initState ("   ") (by decide)

/- Claim C9. -/

/-- C9: after startOver, from any prior state, the engine is back at the
first step, every recorded answer is empty, the questions are preserved,
and the message log holds exactly one assistant message carrying the
first question. -/
theorem c9_theorem (s : Guided.State) :
    (Guided.startOver s).currentStep = 0 ∧
    (∀ st ∈ (Guided.startOver s).automationSteps, st.answer = "") ∧
    (Guided.startOver s).automationSteps.map Step.question =
      s.automationSteps.map Step.question ∧
    (Guided.startOver s).conversation =
      [⟨Sender.assistant, Guided.questionAt s.automationSteps 0⟩] ∧
    (Guided.startOver s).conversation.length = 1 := by
  refine ⟨rfl, ?_, ?_, ?_, ?_⟩
  · intro st hst
    simp only [Guided.startOver, List.mem_map] at hst
    obtain ⟨st0, _, rfl⟩ := hst
    rfl
  · simp [Guided.startOver, List.map_map]
  · simp only [Guided.startOver]
    rw [questionAt_clearAnswers]
  · rfl

/-- C9, witness: the reset property evaluated on the state reached after
the five answers. -/
theorem c9_witness :
    (Guided.startOver afterAllAnswers).currentStep = 0 ∧
    (∀ st ∈ (Guided.startOver afterAllAnswers).automationSteps, st.answer = "") ∧
    (Guided.startOver afterAllAnswers).automationSteps.map Step.question =
      afterAllAnswers.automationSteps.map Step.question ∧
    (Guided.startOver afterAllAnswers).conversation =
      [⟨Sender.assistant, Guided.questionAt afterAllAnswers.automationSteps 0⟩] ∧
    (Guided.startOver afterAllAnswers).conversation.length = 1 :=
  c9_theorem afterAllAnswers

/- Claim C10. -/

/-- C10: the claimed render safety property fails in the reachable
Complete state. After the five valid answers the conversation view is
rendered with isProcessing false and automationCreated false, yet
currentStep equals the step count, so the renderConversation lookup
automationSteps[currentStep] is out of bounds (none models the undefined
JavaScript lookup whose question dereference throws), refuting that the
index stays strictly below the step count. -/
theorem c10_theorem :
    afterAllAnswers.isProcessing = false ∧
    afterAllAnswers.automationCreated = false ∧
    afterAllAnswers.currentStep = afterAllAnswers.automationSteps.length ∧
    Guided.renderQuestionStep afterAllAnswers = none ∧
    ¬ afterAllAnswers.currentStep < afterAllAnswers.automationSteps.length := by
  refine ⟨?_, ?_, ?_, ?_, ?_⟩ <;> decide

end Automator
